import Mathlib

/-!
Shallow embedding of the OCR screen-capture application
(`core/paddle_client.py`, `core/ocr_engine.py`, `capture.py`, `gui/overlay.py`).

Confidences (Python floats) are modelled as rationals `ℚ`; text as `String`.
PaddleOCR engine calls, screen grabs and Qt events are modelled as oracle
parameters supplying the values the external call would return; the control
flow around them is translated statement by statement from the source.
-/

namespace OCRApp

/-- Python `str.strip()`: drop whitespace from both ends.  Implemented
structurally over the character list so that it evaluates by `decide`. -/
def pyStrip (s : String) : String :=
  ⟨((s.data.dropWhile Char.isWhitespace).reverse.dropWhile
      Char.isWhitespace).reverse⟩

/-- Python `str.lower()` (only ASCII language codes occur here). -/
def pyLower (s : String) : String := ⟨s.data.map Char.toLower⟩

/-! ## paddle_client.run_paddle_ocr — result shapes

`result = ocr.ocr(img_array)` is a Python list whose first element the code
inspects.  The shapes the code distinguishes are modelled by the inductives
below; Python truthiness (`if not result`, `if not result[0]`) is modelled
explicitly. -/

/-- The `line[1]` payload of a line in the traditional list format:
a tuple or list with at least two elements `(text, confidence)`, a bare
string, or anything else (which the code skips with `continue`). -/
inductive TextData where
  | tup (text : String) (conf : ℚ)
  | str (s : String)
  | other
deriving DecidableEq

/-- One element of a list-shaped `result[0]`: a falsy value (`if not line:
continue`), a list or tuple with at least two items `[bbox, text_data]`
(the bbox is irrelevant to the extracted text), or a truthy value that is
not a list or tuple of length at least two (nothing is appended for it). -/
inductive Line where
  | falsy
  | entry (td : TextData)
  | short
deriving DecidableEq

/-- One element of the list stored under a recognised key of a dict-shaped
`result[0]`: a bare string (confidence defaults to 1.0), a list or tuple
with at least two elements `(text, confidence)`, or anything else
(skipped). -/
inductive DictItem where
  | str (s : String)
  | pair (text : String) (conf : ℚ)
  | other
deriving DecidableEq

/-- The value found under a recognised key of a dict-shaped `result[0]`:
a list of items, a bare string, or anything else (nothing appended). -/
inductive DictData where
  | list (items : List DictItem)
  | str (s : String)
  | other
deriving DecidableEq

/-- The first element `result[0]` of the engine result: a dict (modelled as
an association list of key/value pairs), a list or tuple of lines, or any
other value, carrying its Python truthiness. -/
inductive FirstItem where
  | dict (d : List (String × DictData))
  | list (lines : List Line)
  | other (truthy : Bool)
deriving DecidableEq

/-- The whole engine result: `noResult` models a falsy `result`
(`None` or an empty list); `ok first` a truthy result with first element
`first`. -/
inductive OcrResult where
  | noResult
  | ok (first : FirstItem)
deriving DecidableEq

/-- Python truthiness of `result[0]` (`if not result[0]: return "", 0.0`):
an empty dict and an empty list are falsy; for other values we carry the
truthiness flag. -/
def firstFalsy : FirstItem → Bool
  | .dict d => d.isEmpty
  | .list l => l.isEmpty
  | .other t => !t

/-- The ordered key probe of the dictionary parsing strategy:
`for possible_key in ['text', 'texts', 'rec_text', 'rec_texts', 'results']`. -/
def possible_keys : List String :=
  ["text", "texts", "rec_text", "rec_texts", "results"]

/-- Parse one item of a list found under a recognised dict key:
a bare string gets confidence 1.0, a pair contributes its own confidence,
anything else is skipped.  Note: no emptiness check on the text here,
unlike the list strategy. -/
def parseDictItem : DictItem → List (String × ℚ)
  | .str s => [(s, 1)]
  | .pair t c => [(t, c)]
  | .other => []

/-- Parse the data found under the first recognised key of a dict-shaped
`result[0]`. -/
def parseDictData : DictData → List (String × ℚ)
  | .list items => items.flatMap parseDictItem
  | .str s => [(s, 1)]
  | .other => []

/-- Strategy 1 of `run_paddle_ocr`: probe `possible_keys` in order, parse
the value under the first key present, then `break`. -/
def dictStrategy (d : List (String × DictData)) : List (String × ℚ) :=
  match possible_keys.findSome? (fun k => List.lookup k d) with
  | some data => parseDictData data
  | none => []

/-- Parse one line of a list-shaped `result[0]` (Strategy 2): falsy lines
and lines that are not pairs are skipped; a `(text, conf)` payload or a
bare-string payload is kept only `if text and text.strip()`. -/
def parseLine : Line → List (String × ℚ)
  | .falsy => []
  | .short => []
  | .entry td =>
    match td with
    | .tup t c => if t ≠ "" ∧ pyStrip t ≠ "" then [(t, c)] else []
    | .str s => if s ≠ "" ∧ pyStrip s ≠ "" then [(s, 1)] else []
    | .other => []

/-- Strategy 2 of `run_paddle_ocr`: parse each line of a list-shaped
`result[0]` in order. -/
def listStrategy (lines : List Line) : List (String × ℚ) :=
  lines.flatMap parseLine

/-- The tail of `run_paddle_ocr`: `if not text_lines: return "", 0.0`,
else join the lines with newlines and average the confidences
(`avg_conf = sum(confidences) / len(confidences) if confidences else 0.0`). -/
def finalize (pairs : List (String × ℚ)) : String × ℚ :=
  let text_lines := pairs.map Prod.fst
  let confidences := pairs.map Prod.snd
  if text_lines.isEmpty then ("", 0)
  else (String.intercalate "\n" text_lines,
        if confidences.isEmpty then 0
        else confidences.sum / (confidences.length : ℚ))

/-- `run_paddle_ocr` after the engine call: the normalisation of the raw
engine result into `(full_text, avg_conf)`.  A falsy `result` or `result[0]`
and an unknown `result[0]` shape all return `("", 0.0)`. -/
def run_paddle_ocr (result : OcrResult) : String × ℚ :=
  match result with
  | .noResult => ("", 0)
  | .ok first =>
    if firstFalsy first then ("", 0)
    else
      match first with
      | .dict d => finalize (dictStrategy d)
      | .list lines => finalize (listStrategy lines)
      | .other _ => ("", 0)

/-- One iteration of the `run_paddle_ocr_multi_lang` loop: run one
language attempt and keep it `if conf > best_conf and text.strip()`.
The engine oracle maps each language to the raw result `ocr.ocr` would
produce for it. -/
def bestStep (engine : String → OcrResult) (best : String × ℚ)
    (lang : String) : String × ℚ :=
  let r := run_paddle_ocr (engine lang)
  if r.2 > best.2 ∧ pyStrip r.1 ≠ "" then r else best

/-- The loop of `run_paddle_ocr_multi_lang`, starting from
`best_text, best_conf = "", 0.0`. -/
def run_paddle_ocr_multi_lang (engine : String → OcrResult)
    (langs : List String) : String × ℚ :=
  langs.foldl (bestStep engine) ("", 0)

/-! ## ocr_engine.run_ocr -/

/-- The language-code normalisation table of `run_ocr`. -/
def lang_map : List (String × String) :=
  [("eng", "en"), ("en", "en"),
   ("hin", "hindi"), ("hindi", "hindi"), ("hi", "hindi"),
   ("eng+hin", "multilingual"), ("hin+eng", "multilingual"),
   ("bilingual", "multilingual"), ("multilingual", "multilingual")]

/-- The default fallback language list passed by `run_ocr` to
`run_paddle_ocr_multi_lang` (its Python default for `langs=None`). -/
def default_langs : List String := ["hindi", "multilingual", "en"]

/-- `run_ocr`: normalise the language code (unknown codes default to
`multilingual`), run the primary recognition, and
`if not text or not text.strip()` retry with the multi-language fallback —
but only `if paddle_lang == 'multilingual'`. -/
def run_ocr (engine : String → OcrResult) (langs : String) : String × ℚ :=
  let paddle_lang := (List.lookup (pyLower langs) lang_map).getD "multilingual"
  let r := run_paddle_ocr (engine paddle_lang)
  if r.1 = "" ∨ pyStrip r.1 = "" then
    if paddle_lang = "multilingual" then
      run_paddle_ocr_multi_lang engine default_langs
    else r
  else r

/-! ## capture.py — backend chain and MSS backend

Images are abstract (`α`); an MSS `ScreenShot` carries its pixel size.
`Image.frombytes` is a lossless conversion and is modelled as the
identity.  Each external grab is an oracle parameter: `none` models a
grab that raised or returned a falsy value. -/

/-- An MSS `ScreenShot`: its pixel size plus its abstract RGB payload. -/
structure SctImg (α : Type) where
  width : Nat
  height : Nat
  rgb : α
deriving DecidableEq

/-- `Image.frombytes("RGB", sct_img.size, sct_img.rgb)` — a lossless
conversion, modelled as the identity. -/
def frombytes {α : Type} (s : SctImg α) : SctImg α := s

/-- `_try_mss_capture_debug` after the monitor listing: round the request
to ints (`w_i = max(1, int(round(w)))`), attempt the global grab and
return the converted image whether or not its size matches the request
(the mismatch is only logged); when the global grab raises or returns a
falsy screenshot, fall into the per-monitor fallback grab. -/
def try_mss_capture_debug {α : Type} (w h : Int)
    (globalGrab : Option (SctImg α)) (fallbackGrab : Option (SctImg α)) :
    Option (SctImg α) :=
  let w_i := max 1 w
  let h_i := max 1 h
  match globalGrab with
  | some sct_img =>
    if (sct_img.width : Int) = w_i ∧ (sct_img.height : Int) = h_i then
      some (frombytes sct_img)
    else
      some (frombytes sct_img)
  | none =>
    match fallbackGrab with
    | some sct_img => some (frombytes sct_img)
    | none => none

/-- The three capture backends in source order. -/
inductive Backend where
  | mss
  | dxcam
  | qt
deriving DecidableEq

/-- `capture_region`: validate the dimensions, detect the screen under
`(x, y)`, then run the backend chain.  The returned list records which
backends were attempted, in order.  `screenFound` models whether
`test_point_detection` found a screen; `dxcam` and `qt` are the oracle
results of `_try_dxcam_capture_debug` and `_try_qt_capture_debug`.
Note that in the source the dxcam result is assigned to `img` and then
immediately overwritten by the Qt attempt without being checked. -/
def capture_region {α : Type} (w h : Int) (screenFound : Bool)
    (mssGlobal mssFallback : Option (SctImg α))
    (dxcam qt : Option (SctImg α)) :
    Option (SctImg α) × List Backend :=
  if w ≤ 0 ∨ h ≤ 0 then (none, [])
  else if screenFound = false then (none, [])
  else
    match try_mss_capture_debug w h mssGlobal mssFallback with
    | some img => (some img, [.mss])
    | none =>
      match qt with
      | some img => (some img, [.mss, .dxcam, .qt])
      | none => (none, [.mss, .dxcam, .qt])

/-! ## capture.py — MSS per-monitor fallback region arithmetic -/

/-- An MSS grab region dict `{"left", "top", "width", "height"}`. -/
structure Region where
  left : Int
  top : Int
  width : Int
  height : Int
deriving DecidableEq

/-- An entry of `sct.monitors`. -/
structure Monitor where
  left : Int
  top : Int
  width : Int
  height : Int
deriving DecidableEq

/-- The global grab region of `_try_mss_capture_debug`:
`{"left": x_i, "top": y_i, "width": w_i, "height": h_i}`. -/
def global_region (x_i y_i w_i h_i : Int) : Region :=
  { left := x_i, top := y_i, width := w_i, height := h_i }

/-- The per-monitor fallback region of `_try_mss_capture_debug`:
`rel_x = x_i - mon["left"]`, `rel_y = y_i - mon["top"]`, then
`{"left": mon["left"] + rel_x, "top": mon["top"] + rel_y,
"width": w_i, "height": h_i}`. -/
def per_monitor_region (x_i y_i w_i h_i : Int) (mon : Monitor) : Region :=
  let rel_x := x_i - mon.left
  let rel_y := y_i - mon.top
  { left := mon.left + rel_x, top := mon.top + rel_y,
    width := w_i, height := h_i }

/-! ## overlay.py — selection rectangle -/

/-- A Qt `QPoint` in logical coordinates. -/
structure QPoint where
  x : Int
  y : Int
deriving DecidableEq

/-- A Qt 6 `QRect`, stored as its two corners, as Qt does. -/
structure QRect where
  x1 : Int
  y1 : Int
  x2 : Int
  y2 : Int
deriving DecidableEq

/-- `QRect(topLeft, bottomRight)`. -/
def QRect.fromPoints (tl br : QPoint) : QRect :=
  { x1 := tl.x, y1 := tl.y, x2 := br.x, y2 := br.y }

/-- `QRect::width()`: `x2 - x1 + 1` (Qt rectangles are corner-inclusive). -/
def QRect.width (r : QRect) : Int := r.x2 - r.x1 + 1

/-- `QRect::height()`: `y2 - y1 + 1`. -/
def QRect.height (r : QRect) : Int := r.y2 - r.y1 + 1

/-- Qt 6 `QRect::normalized()`: swap the x corners when `x2 < x1` and the
y corners when `y2 < y1`. -/
def QRect.normalized (r : QRect) : QRect :=
  let p := if r.x2 < r.x1 then (r.x2, r.x1) else (r.x1, r.x2)
  let q := if r.y2 < r.y1 then (r.y2, r.y1) else (r.y1, r.y2)
  { x1 := p.1, y1 := q.1, x2 := p.2, y2 := q.2 }

/-- Qt mouse buttons (only the distinction left / not-left matters). -/
inductive MouseButton where
  | left
  | right
  | middle
deriving DecidableEq

/-- `SelectionOverlay.mouseReleaseEvent`: ignore the event unless a drag
is in progress and the left button was released; normalise the selection
rectangle; drop it when `rect.width() < 10 or rect.height() < 10`;
otherwise hand the rectangle to `parent_window.on_selection_made`.
`some rect` models that call being scheduled; `none` models that
`on_selection_made` is never invoked. -/
def mouseReleaseEvent (dragging : Bool) (button : MouseButton)
    (start_global end_global : QPoint) : Option QRect :=
  if ¬dragging ∨ button ≠ .left then none
  else
    let rect := (QRect.fromPoints start_global end_global).normalized
    if rect.width < 10 ∨ rect.height < 10 then none
    else some rect

/-! ## Concrete inputs used in the theorems below -/

/-- An engine that recognises `("ok", 0.9)` under the `hindi` profile and
returns no result for every other profile. -/
def hindiOnlyEngine : String → OcrResult := fun lang =>
  if lang = "hindi" then .ok (.list [.entry (.tup "ok" (9/10))])
  else .noResult

/-- An engine whose every attempt recognises the non-empty text `"hello"`
with confidence 0.0. -/
def zeroConfEngine : String → OcrResult := fun _ =>
  .ok (.list [.entry (.tup "hello" 0)])

/-- An engine whose every attempt recognises `("hi", 1.0)`. -/
def plainEngine : String → OcrResult := fun _ =>
  .ok (.list [.entry (.tup "hi" 1)])

/-- A 100-by-100 screenshot with payload 7, used as a dxcam result. -/
def dxImg : SctImg Nat := ⟨100, 100, 7⟩

/-- A 5-by-5 screenshot with payload 3, used as an MSS result. -/
def mssImg : SctImg Nat := ⟨5, 5, 3⟩

/-- A 20-by-20 screenshot with payload 1, an MSS grab whose size differs
from a 10-by-10 request. -/
def bigImg : SctImg Nat := ⟨20, 20, 1⟩

/-! ## Helper lemmas -/

/-- Stripping the empty string yields the empty string. -/
theorem pyStrip_of_eq_empty {t : String} (h : t = "") : pyStrip t = "" := by
  subst h; rfl

/-- Characterisation of the final assembly step of `run_paddle_ocr`. -/
theorem finalize_spec (pairs : List (String × ℚ)) :
    finalize pairs =
      if pairs.isEmpty then ("", 0)
      else (String.intercalate "\n" (pairs.map Prod.fst),
            (pairs.map Prod.snd).sum / (pairs.length : ℚ)) := by
  unfold finalize
  cases pairs with
  | nil => simp
  | cons a l => simp

/-- The list strategy on well-formed `[bbox, (text, conf)]` lines keeps
exactly the entries whose stripped text is non-empty. -/
theorem listStrategy_map_entries (entries : List (String × ℚ)) :
    listStrategy (entries.map fun p => Line.entry (.tup p.1 p.2)) =
      entries.filter fun p => pyStrip p.1 ≠ "" := by
  induction entries with
  | nil => rfl
  | cons a l ih =>
    simp only [List.map_cons, listStrategy, List.flatMap_cons, parseLine,
      List.filter_cons] at *
    by_cases h : pyStrip a.1 = ""
    · simp [h, ih]
    · have ha : a.1 ≠ "" := fun he => h (pyStrip_of_eq_empty he)
      simp [h, ha, ih]

/-! ## Theorems for the claims -/

/-- Claim C10 (confirmed): the MSS per-monitor fallback capture region
`{left: mon.left + (x - mon.left), top: mon.top + (y - mon.top),
width: w, height: h}` equals the original global region
`{left: x, top: y, width: w, height: h}` for every request and every
monitor: the monitor-relative translation is the identity. -/
theorem per_monitor_region_eq_global (x_i y_i w_i h_i : Int) (mon : Monitor) :
    per_monitor_region x_i y_i w_i h_i mon = global_region x_i y_i w_i h_i := by
  have hx : mon.left + (x_i - mon.left) = x_i := by omega
  have hy : mon.top + (y_i - mon.top) = y_i := by omega
  simp [per_monitor_region, global_region, hx, hy]

/-- Claim C7 (confirmed): when `result[0]` is neither a dict nor a list
or tuple, `run_paddle_ocr` returns `("", 0.0)` (for both truthy and falsy
such values); in the embedding the unknown-shape branch is total, so no
error propagates. -/
theorem unknown_shape_returns_empty (t : Bool) :
    run_paddle_ocr (.ok (.other t)) = ("", 0) := by
  cases t <;> rfl

/-- Claim C9 (confirmed): the keyed-mapping result `{"text": ["a", "b"]}`
normalises to the text `"a\nb"` with confidence exactly 1.0, each bare
string defaulting to confidence 1.0. -/
theorem dict_two_strings_normalisation :
    run_paddle_ocr (.ok (.dict [("text", .list [.str "a", .str "b"])])) =
      ("a\nb", 1) := by
  simp +decide [run_paddle_ocr, firstFalsy, dictStrategy, possible_keys,
    parseDictData, parseDictItem, finalize]

/-- Claim C3 (code bug): evaluation of `run_paddle_ocr` at the
keyed-mapping result `[{"text": [""]}]`: the dict strategy appends the
bare empty string with confidence 1.0 without the emptiness check the
list strategy performs, so the function returns the empty text with
confidence 1.0, violating the spec invariant that empty text never
carries positive confidence. -/
theorem dict_empty_string_conf_one :
    run_paddle_ocr (.ok (.dict [("text", .list [.str ""])])) = ("", 1) := by
  simp +decide [run_paddle_ocr, firstFalsy, dictStrategy, possible_keys,
    parseDictData, parseDictItem, finalize]

/-- Claim C5 (confirmed): on a list-shaped result whose lines are
`[bbox, (text, score)]` pairs, `run_paddle_ocr` skips every line whose
text is empty or whitespace-only, joins the accepted texts with newlines
in order, and returns the arithmetic mean of the accepted scores
(`("", 0.0)` when no line is accepted). -/
theorem list_shape_normalisation (entries : List (String × ℚ)) :
    run_paddle_ocr (.ok (.list (entries.map fun p => Line.entry (.tup p.1 p.2)))) =
      (if (entries.filter fun p => pyStrip p.1 ≠ "").isEmpty then ("", 0)
       else
        (String.intercalate "\n"
          ((entries.filter fun p => pyStrip p.1 ≠ "").map Prod.fst),
         ((entries.filter fun p => pyStrip p.1 ≠ "").map Prod.snd).sum /
           (((entries.filter fun p => pyStrip p.1 ≠ "").length : ℚ)))) := by
  have hls := listStrategy_map_entries entries
  have hie : (entries.map fun p => Line.entry (TextData.tup p.1 p.2)).isEmpty
      = entries.isEmpty := by
    cases entries <;> simp
  simp only [run_paddle_ocr, firstFalsy, hie, hls, finalize_spec]
  cases entries with
  | nil => rfl
  | cons a l =>
    simp only [List.isEmpty_cons, Bool.false_eq_true, if_false]

/-- Claim C6 (confirmed): when the global MSS grab returns an image whose
pixel size differs from the requested `(w, h)`, the backend still converts
and returns it, and `capture_region` returns it as the MSS result without
falling through to any later backend. -/
theorem mss_size_mismatch_accepted {α : Type} (w h : Int) (hw : 0 < w) (hh : 0 < h)
    (img : SctImg α) (mssF dx qt : Option (SctImg α))
    (hmis : ¬((img.width : Int) = w ∧ (img.height : Int) = h)) :
    capture_region w h true (some img) mssF dx qt = (some img, [Backend.mss]) := by
  have hvw : ¬(w ≤ 0 ∨ h ≤ 0) := by omega
  simp [capture_region, hvw, try_mss_capture_debug, frombytes]

/-- Witness for claim C6: a 10-by-10 request whose global MSS grab comes
back 20-by-20 is still returned by `capture_region`. -/
theorem mss_size_mismatch_accepted_witness :
    capture_region 10 10 true (some bigImg) none none none = (some bigImg, [Backend.mss]) :=
  mss_size_mismatch_accepted (α := Nat) 10 10 (by norm_num) (by norm_num) bigImg
    none none none (by norm_num [bigImg])

/-- Counterexample for claim C1: with MSS failing, dxcam succeeding
(`some dxImg`) and Qt failing, `capture_region` returns `None` even though
a backend succeeded, and the Qt backend is attempted after the successful
dxcam one — the dxcam result is discarded. -/
theorem capture_chain_discards_dxcam :
    (capture_region 100 100 true none none (some dxImg) none).1 = none
    ∧ Backend.qt ∈ (capture_region 100 100 true none none (some dxImg) none).2 := by
  constructor <;> simp +decide [capture_region, try_mss_capture_debug]

/-- Claim C1 (corrected): for a valid request, `capture_region` returns
the MSS image when the MSS backend succeeds, attempting nothing else;
when MSS fails, dxcam is attempted but its result is discarded
(overwritten by the Qt attempt), and the function returns exactly the Qt
result — `None` iff MSS and Qt both failed, regardless of dxcam. -/
theorem capture_region_chain {α : Type} (w h : Int) (hw : 0 < w) (hh : 0 < h)
    (mssG mssF dx qt : Option (SctImg α)) :
    (∀ img, try_mss_capture_debug w h mssG mssF = some img →
        capture_region w h true mssG mssF dx qt = (some img, [Backend.mss]))
    ∧ (try_mss_capture_debug w h mssG mssF = none →
        capture_region w h true mssG mssF dx qt
          = (qt, [Backend.mss, Backend.dxcam, Backend.qt])) := by
  have hvw : ¬(w ≤ 0 ∨ h ≤ 0) := by omega
  constructor
  · intro img himg
    simp [capture_region, hvw, himg]
  · intro hnone
    simp only [capture_region, hvw, if_false, hnone]
    cases qt <;> simp

/-- Witness for claim C1 (corrected form): a successful MSS grab is
returned directly with only the MSS backend attempted. -/
theorem capture_region_chain_witness :
    capture_region 5 5 true (some mssImg) none none none = (some mssImg, [Backend.mss]) := by
  have h := capture_region_chain (α := Nat) 5 5 (by norm_num) (by norm_num)
    (some mssImg) none none none
  exact h.1 mssImg (by simp [try_mss_capture_debug, frombytes])

/-- Claim C8 (confirmed): a completed drag whose normalized rectangle has
width or height below 10 logical units makes `mouseReleaseEvent` return
without invoking `on_selection_made` (for every drag state and button),
so no capture is requested for that rectangle. -/
theorem small_selection_rejected (dragging : Bool) (button : MouseButton)
    (s e : QPoint)
    (hsmall : (QRect.fromPoints s e).normalized.width < 10 ∨
              (QRect.fromPoints s e).normalized.height < 10) :
    mouseReleaseEvent dragging button s e = none := by
  unfold mouseReleaseEvent
  by_cases hd : ¬dragging = true ∨ ¬button = MouseButton.left
  · rw [if_pos hd]
  · simp [hd, hsmall]

/-- Witness for claim C8: a 4-by-4 drag from (0,0) to (3,3) is rejected. -/
theorem small_selection_rejected_witness :
    mouseReleaseEvent true MouseButton.left ⟨0, 0⟩ ⟨3, 3⟩ = none :=
  small_selection_rejected true MouseButton.left ⟨0, 0⟩ ⟨3, 3⟩ (by decide)

/-- One multi-language step never lowers the best confidence. -/
theorem bestStep_conf_le (engine : String → OcrResult) (best : String × ℚ) (lang : String) :
    best.2 ≤ (bestStep engine best lang).2 := by
  simp only [bestStep]
  split
  · next h => exact le_of_lt h.1
  · exact le_refl _

/-- The multi-language loop never lowers the best confidence. -/
theorem foldl_bestStep_mono (engine : String → OcrResult) :
    ∀ (langs : List String) (init : String × ℚ),
      init.2 ≤ (langs.foldl (bestStep engine) init).2 := by
  intro langs
  induction langs with
  | nil => intro init; simp
  | cons a l ih =>
    intro init
    rw [List.foldl_cons]
    exact le_trans (bestStep_conf_le engine init a) (ih (bestStep engine init a))

/-- The multi-language loop ends with a confidence at least that of every
attempt whose stripped text is non-empty. -/
theorem foldl_bestStep_ge_attempt (engine : String → OcrResult) :
    ∀ (langs : List String) (init : String × ℚ) (lang : String),
      lang ∈ langs → pyStrip (run_paddle_ocr (engine lang)).1 ≠ "" →
      (run_paddle_ocr (engine lang)).2 ≤ (langs.foldl (bestStep engine) init).2 := by
  intro langs
  induction langs with
  | nil => intro init lang h _; exact absurd h (List.not_mem_nil lang)
  | cons a l ih =>
    intro init lang hmem hstrip
    rw [List.foldl_cons]
    rcases List.mem_cons.mp hmem with rfl | hl
    · have hle : (run_paddle_ocr (engine lang)).2 ≤ (bestStep engine init lang).2 := by
        simp only [bestStep]
        split
        · exact le_refl _
        · next h =>
          have hngt : ¬ (run_paddle_ocr (engine lang)).2 > init.2 :=
            fun hgt => h ⟨hgt, hstrip⟩
          exact le_of_not_lt hngt
      exact le_trans hle (foldl_bestStep_mono engine l _)
    · exact ih _ lang hl hstrip

/-- The multi-language loop either keeps its initial accumulator or ends
at one of the attempts, one with non-empty stripped text whose confidence
strictly exceeds the initial one. -/
theorem foldl_bestStep_attain (engine : String → OcrResult) :
    ∀ (langs : List String) (init : String × ℚ),
      langs.foldl (bestStep engine) init = init
      ∨ ∃ lang ∈ langs,
          langs.foldl (bestStep engine) init = run_paddle_ocr (engine lang)
          ∧ pyStrip (run_paddle_ocr (engine lang)).1 ≠ ""
          ∧ init.2 < (run_paddle_ocr (engine lang)).2 := by
  intro langs
  induction langs with
  | nil => intro init; exact Or.inl rfl
  | cons a l ih =>
    intro init
    rw [List.foldl_cons]
    by_cases hc : (run_paddle_ocr (engine a)).2 > init.2
        ∧ pyStrip (run_paddle_ocr (engine a)).1 ≠ ""
    · have hstep : bestStep engine init a = run_paddle_ocr (engine a) := by
        simp only [bestStep]
        rw [if_pos hc]
      rcases ih (bestStep engine init a) with h | ⟨lang, hmem, heq, hst, hlt⟩
      · exact Or.inr ⟨a, List.mem_cons_self a l, by rw [h, hstep], hc.2, hc.1⟩
      · refine Or.inr ⟨lang, List.mem_cons_of_mem a hmem, heq, hst, ?_⟩
        calc init.2 < (run_paddle_ocr (engine a)).2 := hc.1
          _ = (bestStep engine init a).2 := by rw [hstep]
          _ < _ := hlt
    · have hstep : bestStep engine init a = init := by
        simp only [bestStep]
        rw [if_neg hc]
      rw [hstep]
      rcases ih init with h | ⟨lang, hmem, heq, hst, hlt⟩
      · exact Or.inl h
      · exact Or.inr ⟨lang, List.mem_cons_of_mem a hmem, heq, hst, hlt⟩

/-- Counterexample for claim C4: an attempt producing the non-empty text
`"hello"` with confidence 0.0 is the highest-confidence non-empty attempt,
yet `run_paddle_ocr_multi_lang` returns `("", 0.0)` instead of it, because
an attempt is only kept when its confidence strictly exceeds the current
best, which starts at 0.0. -/
theorem multi_lang_drops_zero_conf :
    run_paddle_ocr (zeroConfEngine "en") = ("hello", 0)
    ∧ pyStrip "hello" ≠ ""
    ∧ run_paddle_ocr_multi_lang zeroConfEngine ["en"] = ("", 0) := by
  refine ⟨?_, by decide, ?_⟩ <;>
    simp +decide [zeroConfEngine, run_paddle_ocr_multi_lang, bestStep, run_paddle_ocr,
      firstFalsy, listStrategy, parseLine, finalize]

/-- Claim C4 (corrected): `run_paddle_ocr_multi_lang` returns a pair whose
confidence is at least that of every attempt with non-empty stripped
text, and the pair is either `("", 0.0)` or equal to one of the attempts,
one with non-empty stripped text and strictly positive confidence; so
all-empty attempts yield `("", 0.0)` without error, but a non-empty
attempt whose confidence is 0.0 is never returned. -/
theorem multi_lang_best_spec (engine : String → OcrResult) (langs : List String) :
    (∀ lang ∈ langs, pyStrip (run_paddle_ocr (engine lang)).1 ≠ "" →
        (run_paddle_ocr (engine lang)).2 ≤ (run_paddle_ocr_multi_lang engine langs).2)
    ∧ (run_paddle_ocr_multi_lang engine langs = ("", 0)
       ∨ ∃ lang ∈ langs,
           run_paddle_ocr_multi_lang engine langs = run_paddle_ocr (engine lang)
           ∧ pyStrip (run_paddle_ocr (engine lang)).1 ≠ ""
           ∧ 0 < (run_paddle_ocr (engine lang)).2) := by
  constructor
  · intro lang hmem hst
    exact foldl_bestStep_ge_attempt engine langs ("", 0) lang hmem hst
  · exact foldl_bestStep_attain engine langs ("", 0)

/-- Witness for claim C4 (corrected form): the single attempt
`("hi", 1.0)` bounds the returned confidence from below. -/
theorem multi_lang_best_spec_witness :
    (run_paddle_ocr (plainEngine "en")).2 ≤ (run_paddle_ocr_multi_lang plainEngine ["en"]).2 := by
  have h := multi_lang_best_spec plainEngine ["en"]
  exact h.1 "en" (by simp) (by decide)

/-- Counterexample for claim C2: with an English-only primary profile
whose attempt is empty, `run_ocr` returns `("", 0.0)` without retrying,
even though the fallback list would have recognised `("ok", 0.9)` under
the `hindi` profile. -/
theorem run_ocr_english_no_retry :
    run_ocr hindiOnlyEngine "eng" = ("", 0)
    ∧ run_paddle_ocr_multi_lang hindiOnlyEngine default_langs = ("ok", 9/10) := by
  constructor <;>
    simp +decide [run_ocr, hindiOnlyEngine, run_paddle_ocr_multi_lang, bestStep,
      default_langs, run_paddle_ocr, firstFalsy, listStrategy, parseLine, finalize,
      lang_map, pyLower]

/-- Claim C2 (corrected): when the primary attempt's text strips to
empty, `run_ocr` retries with the ordered fallback list
`["hindi", "multilingual", "en"]` only when the primary profile is
`multilingual`; for an English-only or Hindi-only primary it returns the
primary (empty) result without any retry. -/
theorem run_ocr_fallback_only_multilingual (engine : String → OcrResult) (langs : String)
    (hempty : pyStrip (run_paddle_ocr
        (engine ((List.lookup (pyLower langs) lang_map).getD "multilingual"))).1 = "") :
    (((List.lookup (pyLower langs) lang_map).getD "multilingual") = "multilingual" →
        run_ocr engine langs = run_paddle_ocr_multi_lang engine default_langs)
    ∧ (((List.lookup (pyLower langs) lang_map).getD "multilingual") ≠ "multilingual" →
        run_ocr engine langs
          = run_paddle_ocr (engine ((List.lookup (pyLower langs) lang_map).getD "multilingual"))) := by
  simp only [run_ocr]
  constructor
  · intro hml
    rw [if_pos (Or.inr hempty), if_pos hml]
  · intro hml
    rw [if_pos (Or.inr hempty), if_neg hml]

/-- Witness for claim C2 (corrected form): the request `"eng"` maps to
the `en` profile, whose empty attempt is returned directly. -/
theorem run_ocr_fallback_only_multilingual_witness :
    run_ocr hindiOnlyEngine "eng" = run_paddle_ocr (hindiOnlyEngine "en") := by
  have hx : ((List.lookup (pyLower "eng") lang_map).getD "multilingual") = "en" := by decide
  have h := run_ocr_fallback_only_multilingual hindiOnlyEngine "eng" (by decide)
  have h2 := h.2 (by decide)
  rw [hx] at h2
  exact h2

end OCRApp
